import Mathlib

/-!
Verification development for the multi-provider LLM comparison CLI
(`Use-case-Mapping`): provider abstraction, response normalization,
comparison orchestration and token/context estimation.

The Python source is shallowly embedded: pure functions become Lean
functions, the awaited vendor HTTP call becomes an explicit
`CallResult` value describing what the call produced (a parsed success
payload together with the elapsed wall-clock time, or a raised
exception message), and Python exceptions raised out of a function
become `Except.error`.  Python `dict`s with fixed keys become
structures; vendor lookup tables become association lists, matching
`dict.get(key, default)` with `List.lookup` plus `Option.getD`.

Numeric conventions: Python ints are `Nat`/`Int` (the counters here are
all non-negative), Python floats that hold wall-clock durations or the
word-count token heuristic are modelled as `ℚ`.  `int(w * 1.3)` is
modelled as `(w * 13) / 10` in `Nat`: the IEEE double closest to 1.3
exceeds 13/10 by about 4.4e-17, so for every word count `w` reachable
from a real string (`w < 2^49`) the float product `w * 1.3` truncates
to exactly `⌊13 w / 10⌋`; the same bound shows the float product is
non-integral exactly when `13 w / 10` is, for such `w`.
-/

namespace UseCaseMapping

/-- A value stored in a model-characteristics table (`Dict[str, Any]` in the
source holds ints, strings and lists of strings). -/
inductive PyVal where
  | pint (n : ℤ)
  | pstr (s : String)
  | plist (xs : List String)
deriving DecidableEq, Repr

/-- Models `token_usage` sub-dictionary of a normalized response.  Fields are `ℚ`
because the Hugging Face fallback counter produces non-integral values. -/
structure TokenUsage where
  input_tokens : ℚ
  output_tokens : ℚ
  total_tokens : ℚ
deriving DecidableEq, Repr

/-- The normalized response dictionary shared by all providers.
`error` is present exactly on the failure path; `timestamp` is added by
`BaseProvider.format_response` and hence present exactly on success. -/
structure NormalizedResponse where
  provider : String
  model_name : String
  model_type : String
  response : String
  token_usage : TokenUsage
  characteristics : List (String × PyVal)
  response_time : ℚ
  context_window : ℕ
  error : Option String
  timestamp : Option ℚ
deriving DecidableEq, Repr

/-- Outcome of the awaited vendor call inside the `try` block of
`generate_response`: either a parsed success payload, or any exception
raised while performing the call / reading the payload.  `elapsed` is
the wall-clock duration `time.time() - start_time` observed at the
point the outcome becomes known. -/
inductive CallResult (α : Type) where
  | ok (val : α) (elapsed : ℚ)
  | exn (msg : String) (elapsed : ℚ)
deriving DecidableEq, Repr

/-! ## Tokenization model (`src/utils/tokenizer.py`)

`str.split()` (no separator argument) splits on runs of whitespace and
drops empty pieces; `splitWordsAux` reproduces that on `List Char`.
`' '.join(words)` is `joinWords`. -/

/-- Accumulator-style model of Python `str.split()`: `acc` holds the
(reversed) current word. -/
def splitWordsAux : List Char → List Char → List (List Char)
  | [], acc => if acc.isEmpty then [] else [acc.reverse]
  | c :: cs, acc =>
    if c.isWhitespace then
      if acc.isEmpty then splitWordsAux cs [] else acc.reverse :: splitWordsAux cs []
    else
      splitWordsAux cs (c :: acc)

/-- Python `text.split()` on the character list of a string. -/
def splitWords (s : List Char) : List (List Char) := splitWordsAux s []

/-- Python `' '.join(words)`. -/
def joinWords : List (List Char) → List Char
  | [] => []
  | [w] => w
  | w :: ws => w ++ ' ' :: joinWords ws

/-- Models `TokenizerUtils.count_words`: `len(text.split())`. -/
def count_words (text : String) : ℕ := (splitWords text.data).length

/-- Models `TokenizerUtils._basic_token_estimate`: `int(len(text.split()) * 1.3)`;
`int()` truncates toward zero, so this is `⌊13w/10⌋` (see header note on
the float model). -/
def basic_token_estimate (text : String) : ℕ := count_words text * 13 / 10

/-- Models `TokenizerUtils._estimate_openai_tokens` in the environment where no
precise tokenizer library (`tiktoken`) is importable, so the `except`
branch falls back to the basic estimate for every input. -/
def estimate_openai_tokens (text : String) (_model_name : String) : ℕ :=
  basic_token_estimate text

/-- Models `TokenizerUtils._estimate_anthropic_tokens`, no-tokenizer environment. -/
def estimate_anthropic_tokens (text : String) (_model_name : String) : ℕ :=
  basic_token_estimate text

/-- Models `TokenizerUtils._estimate_huggingface_tokens`, no-tokenizer
environment (`transformers` not importable). -/
def estimate_huggingface_tokens (text : String) (_model_name : String) : ℕ :=
  basic_token_estimate text

/-- Python `str.lower()`, modelled character-wise (the provider names
compared against are ASCII). -/
def lower (s : String) : String := String.mk (s.data.map Char.toLower)

/-- Models `TokenizerUtils.estimate_tokens`: dispatch on the lower-cased provider
name, defaulting to the basic estimate. -/
def estimate_tokens (text : String) (provider : String) (model_name : String) : ℕ :=
  if lower provider = "openai" then estimate_openai_tokens text model_name
  else if lower provider = "anthropic" then estimate_anthropic_tokens text model_name
  else if lower provider = "huggingface" then estimate_huggingface_tokens text model_name
  else basic_token_estimate text

/-- Result dictionary of `TokenizerUtils.check_context_window`. -/
structure ContextCheck where
  estimated_tokens : ℕ
  context_window : ℤ
  fits_in_window : Bool
  utilization_percentage : ℚ
  remaining_tokens : ℤ
deriving DecidableEq, Repr

/-- Models `TokenizerUtils.check_context_window`. -/
def check_context_window (text : String) (context_window : ℤ)
    (provider : String) (model_name : String) : ContextCheck :=
  let estimated := estimate_tokens text provider model_name
  { estimated_tokens := estimated
    context_window := context_window
    fits_in_window := decide ((estimated : ℤ) ≤ context_window)
    utilization_percentage :=
      if 0 < context_window then ((estimated : ℚ) / (context_window : ℚ)) * 100 else 0
    remaining_tokens := max 0 (context_window - (estimated : ℤ)) }

/-- The `while left < right` binary-search loop of
`TokenizerUtils.truncate_to_tokens`, with `mid = (left + right + 1) // 2`;
returns the final value of `left`. -/
def truncateSearch (provider model_name : String) (words : List (List Char))
    (max_tokens : ℕ) (l r : ℕ) : ℕ :=
  if h : l < r then
    let mid := (l + r + 1) / 2
    if estimate_tokens (String.mk (joinWords (words.take mid))) provider model_name ≤ max_tokens then
      truncateSearch provider model_name words max_tokens mid r
    else
      truncateSearch provider model_name words max_tokens l (mid - 1)
  else l
termination_by r - l
decreasing_by
  · omega
  · omega

/-- Models `TokenizerUtils.truncate_to_tokens`. -/
def truncate_to_tokens (text : String) (max_tokens : ℕ)
    (provider : String) (model_name : String) : String :=
  if estimate_tokens text provider model_name ≤ max_tokens then text
  else
    let words := splitWords text.data
    let left := truncateSearch provider model_name words max_tokens 0 words.length
    String.mk (joinWords (words.take left))

/-! ## Shared provider machinery (`src/providers/base_provider.py`) -/

/-- Python truthiness of an optional string (`None` and `""` are falsy);
used for `if not model_name`, `if not api_key`, `if not self.client`. -/
def truthy : Option String → Bool
  | none => false
  | some s => !s.isEmpty

/-- Model-name resolution at the top of every `generate_response`:
`if not model_name: model_name = self.get_default_model(model_type)`
followed by `if not model_name: raise`.  Returns the resolved name, or
`none` when the second falsiness check fires. -/
def resolve_model (get_default_model : String → Option String)
    (model_type : String) (model_name : Option String) : Option String :=
  let resolved :=
    match model_name with
    | none => get_default_model model_type
    | some s => if s.isEmpty then get_default_model model_type else some s
  match resolved with
  | none => none
  | some s => if s.isEmpty then none else some s

/-- Models `BaseProvider.format_response`: the success-path dictionary, filling
`characteristics` and `context_window` through the provider's virtual
lookups and stamping `timestamp`. -/
def format_response (provider_name : String)
    (get_model_characteristics : String → List (String × PyVal))
    (get_context_window : String → ℕ)
    (response_text model_name model_type : String)
    (token_usage : TokenUsage) (response_time timestamp : ℚ) : NormalizedResponse :=
  { provider := provider_name
    model_name := model_name
    model_type := model_type
    response := response_text
    token_usage := token_usage
    characteristics := get_model_characteristics model_name
    response_time := response_time
    context_window := get_context_window model_name
    error := none
    timestamp := some timestamp }

/-- The `except Exception` dictionary shared verbatim by the three
`generate_response` implementations. -/
def error_response (provider_name model_name model_type error_msg : String)
    (elapsed : ℚ) : NormalizedResponse :=
  { provider := provider_name
    model_name := model_name
    model_type := model_type
    response := "Error: " ++ error_msg
    token_usage := ⟨0, 0, 0⟩
    characteristics := []
    response_time := elapsed
    context_window := 0
    error := some error_msg
    timestamp := none }

/-! ## OpenAI provider (`src/providers/openai_provider.py`) -/

namespace OpenAIProvider

/-- Parsed fields read off a successful
`client.chat.completions.create` reply: `choices[0].message.content`
and the three `usage` counters.  Any shape for which those reads raise
is covered by `CallResult.exn`. -/
structure Success where
  text : String
  prompt_tokens : ℕ
  completion_tokens : ℕ
  total_tokens : ℕ
deriving DecidableEq, Repr

/-- Models `OpenAIProvider.get_model_characteristics` static table. -/
def characteristics_table : List (String × List (String × PyVal)) :=
  [("gpt-3.5-turbo",
    [("context_window", .pint 4096), ("training_cutoff", .pstr "2021-09"),
     ("strengths", .plist ["Fast response", "Cost-effective", "Good general performance"]),
     ("use_cases", .plist ["Chat", "Q&A", "Text completion"]),
     ("fine_tuning_strategy", .pstr "Instruction following, human feedback (RLHF)"),
     ("instruction_following", .pstr "Excellent"),
     ("cost_per_1k_tokens", .pstr "$0.001-0.002")]),
   ("gpt-3.5-turbo-16k",
    [("context_window", .pint 16384), ("training_cutoff", .pstr "2021-09"),
     ("strengths", .plist ["Larger context", "Fast response", "Cost-effective"]),
     ("use_cases", .plist ["Long document analysis", "Extended conversations"]),
     ("fine_tuning_strategy", .pstr "Instruction following, human feedback (RLHF)"),
     ("instruction_following", .pstr "Excellent"),
     ("cost_per_1k_tokens", .pstr "$0.003-0.004")]),
   ("gpt-4",
    [("context_window", .pint 8192), ("training_cutoff", .pstr "2021-09"),
     ("strengths", .plist ["Advanced reasoning", "Better accuracy", "Complex tasks"]),
     ("use_cases", .plist ["Complex analysis", "Creative writing", "Problem solving"]),
     ("fine_tuning_strategy", .pstr "Advanced RLHF, constitutional AI"),
     ("instruction_following", .pstr "Outstanding"),
     ("cost_per_1k_tokens", .pstr "$0.03-0.06")]),
   ("gpt-4-turbo",
    [("context_window", .pint 128000), ("training_cutoff", .pstr "2023-12"),
     ("strengths", .plist ["Large context", "Latest training data", "Multimodal"]),
     ("use_cases", .plist ["Long document processing", "Code analysis", "Research"]),
     ("fine_tuning_strategy", .pstr "Advanced RLHF, constitutional AI"),
     ("instruction_following", .pstr "Outstanding"),
     ("cost_per_1k_tokens", .pstr "$0.01-0.03")]),
   ("gpt-4o",
    [("context_window", .pint 128000), ("training_cutoff", .pstr "2023-10"),
     ("strengths", .plist ["Multimodal", "Fast", "Cost-effective"]),
     ("use_cases", .plist ["Vision tasks", "Audio processing", "General chat"]),
     ("fine_tuning_strategy", .pstr "Optimized RLHF for efficiency"),
     ("instruction_following", .pstr "Outstanding"),
     ("cost_per_1k_tokens", .pstr "$0.005-0.015")]),
   ("gpt-4o-mini",
    [("context_window", .pint 128000), ("training_cutoff", .pstr "2023-10"),
     ("strengths", .plist ["Very cost-effective", "Fast", "Good performance"]),
     ("use_cases", .plist ["High-volume applications", "Simple tasks", "Prototyping"]),
     ("fine_tuning_strategy", .pstr "Distilled from GPT-4o"),
     ("instruction_following", .pstr "Very good"),
     ("cost_per_1k_tokens", .pstr "$0.0001-0.0006")]),
   ("gpt-3.5-turbo-instruct",
    [("context_window", .pint 4096), ("training_cutoff", .pstr "2021-09"),
     ("strengths", .plist ["Text completion", "Lower instruction bias"]),
     ("use_cases", .plist ["Text completion", "Creative writing", "Code completion"]),
     ("fine_tuning_strategy", .pstr "Minimal instruction tuning"),
     ("instruction_following", .pstr "Basic"),
     ("cost_per_1k_tokens", .pstr "$0.0015-0.002")])]

/-- The generic descriptive record returned for unknown model names. -/
def default_characteristics : List (String × PyVal) :=
  [("context_window", .pint 4096), ("training_cutoff", .pstr "Unknown"),
   ("strengths", .plist ["General purpose"]),
   ("use_cases", .plist ["General tasks"]),
   ("fine_tuning_strategy", .pstr "Standard"),
   ("instruction_following", .pstr "Good"),
   ("cost_per_1k_tokens", .pstr "Variable")]

/-- Models `OpenAIProvider.get_model_characteristics`. -/
def get_model_characteristics (model_name : String) : List (String × PyVal) :=
  (characteristics_table.lookup model_name).getD default_characteristics

/-- The `windows` dict of `OpenAIProvider.get_context_window`. -/
def windows : List (String × ℕ) :=
  [("gpt-3.5-turbo", 4096), ("gpt-3.5-turbo-16k", 16384), ("gpt-4", 8192),
   ("gpt-4-32k", 32768), ("gpt-4-turbo", 128000), ("gpt-4-turbo-preview", 128000),
   ("gpt-4o", 128000), ("gpt-4o-mini", 128000), ("gpt-3.5-turbo-instruct", 4096),
   ("text-davinci-003", 4097)]

/-- Models `OpenAIProvider.get_context_window`: `windows.get(model_name, 4096)`. -/
def get_context_window (model_name : String) : ℕ :=
  (windows.lookup model_name).getD 4096

/-- Models `OpenAIProvider.get_default_model`: `defaults.get(model_type)`. -/
def get_default_model (model_type : String) : Option String :=
  ([("base", "gpt-3.5-turbo-instruct"), ("instruct", "gpt-3.5-turbo"),
    ("fine-tuned", "gpt-3.5-turbo-ft")] : List (String × String)).lookup model_type

/-- Models `OpenAIProvider.generate_response`.  `client_ready` is the truthiness
of `self.client` (set iff the API key was truthy at construction);
`call` is the outcome of the awaited vendor request; `timestamp` models
the `time.time()` stamp taken inside `format_response`. -/
def generate_response (client_ready : Bool) (_query model_type : String)
    (model_name : Option String) (call : CallResult Success) (timestamp : ℚ) :
    Except String NormalizedResponse :=
  if !client_ready then .error "OpenAI client not initialized. Check API key."
  else
    match resolve_model get_default_model model_type model_name with
    | none => .error ("No available model for type: " ++ model_type)
    | some m =>
      match call with
      | .ok r elapsed =>
        .ok (format_response "openai" get_model_characteristics get_context_window
              r.text m model_type
              ⟨(r.prompt_tokens : ℚ), (r.completion_tokens : ℚ), (r.total_tokens : ℚ)⟩
              elapsed timestamp)
      | .exn e elapsed => .ok (error_response "openai" m model_type e elapsed)

end OpenAIProvider

/-! ## Anthropic provider (`src/providers/anthropic_provider.py`) -/

namespace AnthropicProvider

/-- Parsed fields of a successful `client.messages.create` reply: the
texts of the `content` blocks (the code reads `content[0].text` if the
list is non-empty, else uses `""`) and the two `usage` counters. -/
structure Success where
  content : List String
  input_tokens : ℕ
  output_tokens : ℕ
deriving DecidableEq, Repr

/-- Models `AnthropicProvider.get_model_characteristics` static table. -/
def characteristics_table : List (String × List (String × PyVal)) :=
  [("claude-3-haiku-20240307",
    [("context_window", .pint 200000), ("training_cutoff", .pstr "2024-02"),
     ("strengths", .plist ["Fastest Claude 3", "Cost-effective", "Good for simple tasks"]),
     ("use_cases", .plist ["Quick responses", "Simple analysis", "High-volume applications"]),
     ("fine_tuning_strategy", .pstr "Constitutional AI, RLHF"),
     ("instruction_following", .pstr "Very good"),
     ("cost_per_1k_tokens", .pstr "$0.00025-0.00125")]),
   ("claude-3-sonnet-20240229",
    [("context_window", .pint 200000), ("training_cutoff", .pstr "2024-02"),
     ("strengths", .plist ["Balanced performance", "Good reasoning", "Versatile"]),
     ("use_cases", .plist ["General assistance", "Content creation", "Analysis"]),
     ("fine_tuning_strategy", .pstr "Constitutional AI, RLHF"),
     ("instruction_following", .pstr "Excellent"),
     ("cost_per_1k_tokens", .pstr "$0.003-0.015")]),
   ("claude-3-opus-20240229",
    [("context_window", .pint 200000), ("training_cutoff", .pstr "2024-02"),
     ("strengths", .plist ["Highest capability", "Complex reasoning", "Creative tasks"]),
     ("use_cases", .plist ["Complex analysis", "Research", "Creative writing"]),
     ("fine_tuning_strategy", .pstr "Advanced Constitutional AI, RLHF"),
     ("instruction_following", .pstr "Outstanding"),
     ("cost_per_1k_tokens", .pstr "$0.015-0.075")]),
   ("claude-3-5-sonnet-20240620",
    [("context_window", .pint 200000), ("training_cutoff", .pstr "2024-04"),
     ("strengths", .plist ["Latest model", "Improved reasoning", "Better code understanding"]),
     ("use_cases", .plist ["Code analysis", "Complex reasoning", "Latest capabilities"]),
     ("fine_tuning_strategy", .pstr "Enhanced Constitutional AI, RLHF"),
     ("instruction_following", .pstr "Outstanding"),
     ("cost_per_1k_tokens", .pstr "$0.003-0.015")]),
   ("claude-2.1",
    [("context_window", .pint 200000), ("training_cutoff", .pstr "2023-04"),
     ("strengths", .plist ["Large context", "Good reasoning", "Reduced hallucinations"]),
     ("use_cases", .plist ["Long document analysis", "Research", "Content creation"]),
     ("fine_tuning_strategy", .pstr "Constitutional AI, RLHF"),
     ("instruction_following", .pstr "Very good"),
     ("cost_per_1k_tokens", .pstr "$0.008-0.024")]),
   ("claude-2.0",
    [("context_window", .pint 100000), ("training_cutoff", .pstr "2023-03"),
     ("strengths", .plist ["Good general performance", "Creative tasks"]),
     ("use_cases", .plist ["General assistance", "Writing", "Analysis"]),
     ("fine_tuning_strategy", .pstr "Constitutional AI, RLHF"),
     ("instruction_following", .pstr "Good"),
     ("cost_per_1k_tokens", .pstr "$0.008-0.024")]),
   ("claude-instant-1.2",
    [("context_window", .pint 100000), ("training_cutoff", .pstr "2023-03"),
     ("strengths", .plist ["Fast responses", "Cost-effective"]),
     ("use_cases", .plist ["Quick queries", "Simple tasks", "High-volume"]),
     ("fine_tuning_strategy", .pstr "Streamlined Constitutional AI"),
     ("instruction_following", .pstr "Good"),
     ("cost_per_1k_tokens", .pstr "$0.0008-0.0024")])]

/-- The generic descriptive record returned for unknown model names. -/
def default_characteristics : List (String × PyVal) :=
  [("context_window", .pint 200000), ("training_cutoff", .pstr "Unknown"),
   ("strengths", .plist ["General purpose"]),
   ("use_cases", .plist ["General tasks"]),
   ("fine_tuning_strategy", .pstr "Constitutional AI"),
   ("instruction_following", .pstr "Good"),
   ("cost_per_1k_tokens", .pstr "Variable")]

/-- Models `AnthropicProvider.get_model_characteristics`. -/
def get_model_characteristics (model_name : String) : List (String × PyVal) :=
  (characteristics_table.lookup model_name).getD default_characteristics

/-- The `windows` dict of `AnthropicProvider.get_context_window`. -/
def windows : List (String × ℕ) :=
  [("claude-3-haiku-20240307", 200000), ("claude-3-sonnet-20240229", 200000),
   ("claude-3-opus-20240229", 200000), ("claude-3-5-sonnet-20240620", 200000),
   ("claude-2.1", 200000), ("claude-2.0", 100000), ("claude-instant-1.2", 100000)]

/-- Models `AnthropicProvider.get_context_window`: `windows.get(model_name, 200000)`
— note the default is 200000, not 4096. -/
def get_context_window (model_name : String) : ℕ :=
  (windows.lookup model_name).getD 200000

/-- Models `AnthropicProvider.get_default_model`: the `defaults` dict maps
`'base'` and `'fine-tuned'` explicitly to `None`, and `.get` also
returns `None` for unknown types, so all three collapse to `none`. -/
def get_default_model (model_type : String) : Option String :=
  (([("base", none), ("instruct", some "claude-3-sonnet-20240229"),
     ("fine-tuned", none)] : List (String × Option String)).lookup model_type).getD none

/-- Models `AnthropicProvider.generate_response`. -/
def generate_response (client_ready : Bool) (_query model_type : String)
    (model_name : Option String) (call : CallResult Success) (timestamp : ℚ) :
    Except String NormalizedResponse :=
  if !client_ready then .error "Anthropic client not initialized. Check API key."
  else
    match resolve_model get_default_model model_type model_name with
    | none => .error ("No available model for type: " ++ model_type)
    | some m =>
      match call with
      | .ok r elapsed =>
        .ok (format_response "anthropic" get_model_characteristics get_context_window
              (r.content.headD "") m model_type
              ⟨(r.input_tokens : ℚ), (r.output_tokens : ℚ),
               ((r.input_tokens + r.output_tokens : ℕ) : ℚ)⟩
              elapsed timestamp)
      | .exn e elapsed => .ok (error_response "anthropic" m model_type e elapsed)

end AnthropicProvider

/-! ## Hugging Face provider (`src/providers/huggingface_provider.py`) -/

namespace HuggingFaceProvider

/-- Shape of the parsed JSON body returned by the HF inference API, as
far as `generate_response` inspects it: a list of dicts, a dict, or
anything else.  `rendered` carries the Python `str(result)` rendering,
which the code uses in the fall-through branches. -/
inductive HFJson where
  | jlist (items : List (List (String × String))) (rendered : String)
  | jdict (fields : List (String × String)) (rendered : String)
  | jother (rendered : String)
deriving DecidableEq, Repr

/-- A completed `requests.post` reply: `status_code`, parsed `json()`
body and raw `text`. -/
structure HttpReply where
  status_code : ℕ
  body : HFJson
  text : String
deriving DecidableEq, Repr

/-- The response-text extraction of `generate_response` lines 87-92:
`result[0].get('generated_text', '')` for a non-empty list,
`result.get('generated_text', str(result))` for a dict, `str(result)`
otherwise (an empty list also falls through to `str(result)`). -/
def extract_text : HFJson → String
  | .jlist (d :: _) _ => (d.lookup "generated_text").getD ""
  | .jlist [] rendered => rendered
  | .jdict fields rendered => (fields.lookup "generated_text").getD rendered
  | .jother rendered => rendered

/-- Models `HuggingFaceProvider.get_model_characteristics` static table. -/
def characteristics_table : List (String × List (String × PyVal)) :=
  [("meta-llama/Llama-2-7b-hf",
    [("context_window", .pint 4096), ("training_cutoff", .pstr "2023-07"),
     ("strengths", .plist ["Open source", "Good general performance", "Commercial use"]),
     ("use_cases", .plist ["Text completion", "Research", "Fine-tuning base"]),
     ("fine_tuning_strategy", .pstr "Supervised fine-tuning"),
     ("instruction_following", .pstr "Basic"),
     ("cost_per_1k_tokens", .pstr "Free (self-hosted)")]),
   ("meta-llama/Llama-2-7b-chat-hf",
    [("context_window", .pint 4096), ("training_cutoff", .pstr "2023-07"),
     ("strengths", .plist ["Chat optimized", "Open source", "Safety focused"]),
     ("use_cases", .plist ["Conversational AI", "Q&A", "Assistant applications"]),
     ("fine_tuning_strategy", .pstr "RLHF for helpfulness and safety"),
     ("instruction_following", .pstr "Very good"),
     ("cost_per_1k_tokens", .pstr "Free (self-hosted)")]),
   ("meta-llama/Llama-2-13b-chat-hf",
    [("context_window", .pint 4096), ("training_cutoff", .pstr "2023-07"),
     ("strengths", .plist ["Larger model", "Better performance", "Chat optimized"]),
     ("use_cases", .plist ["Advanced chat", "Complex reasoning", "Content creation"]),
     ("fine_tuning_strategy", .pstr "RLHF for helpfulness and safety"),
     ("instruction_following", .pstr "Excellent"),
     ("cost_per_1k_tokens", .pstr "Free (self-hosted)")]),
   ("mistralai/Mistral-7B-v0.1",
    [("context_window", .pint 32768), ("training_cutoff", .pstr "2023-09"),
     ("strengths", .plist ["Large context", "Efficient", "Open source"]),
     ("use_cases", .plist ["Long document processing", "Code analysis"]),
     ("fine_tuning_strategy", .pstr "Standard pre-training"),
     ("instruction_following", .pstr "Basic"),
     ("cost_per_1k_tokens", .pstr "Free (self-hosted)")]),
   ("mistralai/Mistral-7B-Instruct-v0.1",
    [("context_window", .pint 32768), ("training_cutoff", .pstr "2023-09"),
     ("strengths", .plist ["Instruction following", "Large context", "Efficient"]),
     ("use_cases", .plist ["Task completion", "Q&A", "Analysis"]),
     ("fine_tuning_strategy", .pstr "Instruction fine-tuning"),
     ("instruction_following", .pstr "Very good"),
     ("cost_per_1k_tokens", .pstr "Free (self-hosted)")]),
   ("codellama/CodeLlama-7b-Python-hf",
    [("context_window", .pint 16384), ("training_cutoff", .pstr "2023-07"),
     ("strengths", .plist ["Python specialized", "Code understanding", "Open source"]),
     ("use_cases", .plist ["Python code generation", "Code completion", "Debugging"]),
     ("fine_tuning_strategy", .pstr "Code-specific fine-tuning on Python"),
     ("instruction_following", .pstr "Good (code-focused)"),
     ("cost_per_1k_tokens", .pstr "Free (self-hosted)")]),
   ("codellama/CodeLlama-7b-Instruct-hf",
    [("context_window", .pint 16384), ("training_cutoff", .pstr "2023-07"),
     ("strengths", .plist ["Code instruction following", "Multi-language", "Open source"]),
     ("use_cases", .plist ["Code generation", "Code explanation", "Programming help"]),
     ("fine_tuning_strategy", .pstr "Code + instruction fine-tuning"),
     ("instruction_following", .pstr "Very good (code tasks)"),
     ("cost_per_1k_tokens", .pstr "Free (self-hosted)")]),
   ("HuggingFaceH4/zephyr-7b-beta",
    [("context_window", .pint 32768), ("training_cutoff", .pstr "2023-10"),
     ("strengths", .plist ["Chat optimized", "DPO training", "Open source"]),
     ("use_cases", .plist ["Conversational AI", "Helpful assistant", "Q&A"]),
     ("fine_tuning_strategy", .pstr "DPO (Direct Preference Optimization)"),
     ("instruction_following", .pstr "Excellent"),
     ("cost_per_1k_tokens", .pstr "Free (self-hosted)")])]

/-- The generic descriptive record returned for unknown model names. -/
def default_characteristics : List (String × PyVal) :=
  [("context_window", .pint 4096), ("training_cutoff", .pstr "Unknown"),
   ("strengths", .plist ["Open source", "Customizable"]),
   ("use_cases", .plist ["General tasks", "Research"]),
   ("fine_tuning_strategy", .pstr "Standard"),
   ("instruction_following", .pstr "Variable"),
   ("cost_per_1k_tokens", .pstr "Free (self-hosted)")]

/-- Models `HuggingFaceProvider.get_model_characteristics`. -/
def get_model_characteristics (model_name : String) : List (String × PyVal) :=
  (characteristics_table.lookup model_name).getD default_characteristics

/-- The `windows` dict of `HuggingFaceProvider.get_context_window`. -/
def windows : List (String × ℕ) :=
  [("meta-llama/Llama-2-7b-hf", 4096), ("meta-llama/Llama-2-7b-chat-hf", 4096),
   ("meta-llama/Llama-2-13b-hf", 4096), ("meta-llama/Llama-2-13b-chat-hf", 4096),
   ("mistralai/Mistral-7B-v0.1", 32768), ("mistralai/Mistral-7B-Instruct-v0.1", 32768),
   ("codellama/CodeLlama-7b-Python-hf", 16384), ("codellama/CodeLlama-7b-Instruct-hf", 16384),
   ("HuggingFaceH4/zephyr-7b-beta", 32768), ("openchat/openchat-3.5-1210", 8192)]

/-- Models `HuggingFaceProvider.get_context_window`: `windows.get(model_name, 4096)`. -/
def get_context_window (model_name : String) : ℕ :=
  (windows.lookup model_name).getD 4096

/-- Models `HuggingFaceProvider.get_default_model`. -/
def get_default_model (model_type : String) : Option String :=
  ([("base", "meta-llama/Llama-2-7b-hf"), ("instruct", "meta-llama/Llama-2-7b-chat-hf"),
    ("fine-tuned", "codellama/CodeLlama-7b-Python-hf")] : List (String × String)).lookup model_type

/-- Models `HuggingFaceProvider.count_tokens` in the environment where the
`transformers` tokenizer is unavailable (the `except` clause catches
every exception): `len(text.split()) * 1.3`, a Python *float* despite
the `-> int` annotation.  Modelled exactly as a rational (see header
note on the float model: the float is non-integral whenever the
rational is, for realistic word counts). -/
def count_tokens (text : String) (_model_name : String) : ℚ :=
  (count_words text : ℚ) * 13 / 10

/-- Models `HuggingFaceProvider.generate_response`.  `api_key_truthy` is the
truthiness of `self.api_key`; the chat-template formatting of the
outbound payload only affects the request, which is abstracted into
`call`.  A non-200 status raises inside the `try` and is caught by the
same handler as a network failure; the handler re-reads the clock,
modelled by the same `elapsed` value. -/
def generate_response (api_key_truthy : Bool) (query model_type : String)
    (model_name : Option String) (call : CallResult HttpReply) (timestamp : ℚ) :
    Except String NormalizedResponse :=
  if !api_key_truthy then .error "Hugging Face API key not provided."
  else
    match resolve_model get_default_model model_type model_name with
    | none => .error ("No available model for type: " ++ model_type)
    | some m =>
      match call with
      | .ok reply elapsed =>
        if reply.status_code = 200 then
          let response_text := extract_text reply.body
          let input_tokens := count_tokens query m
          let output_tokens := count_tokens response_text m
          .ok (format_response "huggingface" get_model_characteristics get_context_window
                response_text m model_type
                ⟨input_tokens, output_tokens, input_tokens + output_tokens⟩
                elapsed timestamp)
        else
          let e := "API error: " ++ toString reply.status_code ++ " - " ++ reply.text
          .ok (error_response "huggingface" m model_type e elapsed)
      | .exn e elapsed => .ok (error_response "huggingface" m model_type e elapsed)

end HuggingFaceProvider

/-! ## Factory and orchestration (`src/providers/provider_factory.py`, `main.py`) -/

/-- The three vendor names iterated by `compare_all_models`. -/
inductive Vendor where
  | openai
  | anthropic
  | huggingface
deriving DecidableEq, Repr

/-- The string name used in warnings and dispatch. -/
def vendor_name : Vendor → String
  | .openai => "openai"
  | .anthropic => "anthropic"
  | .huggingface => "huggingface"

/-- Per-vendor credential as seen by the factory and the provider
constructors: `config.get('<vendor>_api_key') or os.getenv(...)`,
merged into one optional string. -/
structure Config where
  openai_api_key : Option String
  anthropic_api_key : Option String
  huggingface_api_key : Option String

/-- The merged key for a vendor. -/
def Config.key (cfg : Config) : Vendor → Option String
  | .openai => cfg.openai_api_key
  | .anthropic => cfg.anthropic_api_key
  | .huggingface => cfg.huggingface_api_key

/-- The `ValueError` message raised by `ProviderFactory._create_*` when the
key is absent. -/
def cred_error : Vendor → String
  | .openai => "OpenAI API key not found. Set OPENAI_API_KEY environment variable or provide in config."
  | .anthropic => "Anthropic API key not found. Set ANTHROPIC_API_KEY environment variable or provide in config."
  | .huggingface => "Hugging Face API key not found. Set HUGGINGFACE_API_KEY environment variable or provide in config."

/-- Models `ProviderFactory.get_provider`: raises iff the vendor's key is falsy.
Construction succeeds otherwise (the memoization cache is behaviorally
transparent for a fixed config). -/
def get_provider (cfg : Config) (v : Vendor) : Except String Unit :=
  if truthy (cfg.key v) then .ok () else .error (cred_error v)

/-- Default-model dispatch by vendor. -/
def default_model : Vendor → String → Option String
  | .openai => OpenAIProvider.get_default_model
  | .anthropic => AnthropicProvider.get_default_model
  | .huggingface => HuggingFaceProvider.get_default_model

/-- The per-(vendor, model_type) stubbed vendor-call outcomes and
timestamps consumed by one orchestrator run: what each awaited network
call would produce if reached. -/
structure Outcomes where
  openai : String → CallResult OpenAIProvider.Success
  anthropic : String → CallResult AnthropicProvider.Success
  huggingface : String → CallResult HuggingFaceProvider.HttpReply
  tstamp : Vendor → String → ℚ

/-- Models `provider.generate_response(query=..., model_type=..., model_name=...)`
dispatched by vendor, with the client-readiness flag derived from the
same merged key the constructor saw. -/
def run_generate (cfg : Config) (ocs : Outcomes) (v : Vendor)
    (query model_type : String) (model_name : Option String) :
    Except String NormalizedResponse :=
  match v with
  | .openai =>
    OpenAIProvider.generate_response (truthy cfg.openai_api_key) query model_type
      model_name (ocs.openai model_type) (ocs.tstamp .openai model_type)
  | .anthropic =>
    AnthropicProvider.generate_response (truthy cfg.anthropic_api_key) query model_type
      model_name (ocs.anthropic model_type) (ocs.tstamp .anthropic model_type)
  | .huggingface =>
    HuggingFaceProvider.generate_response (truthy cfg.huggingface_api_key) query model_type
      model_name (ocs.huggingface model_type) (ocs.tstamp .huggingface model_type)

/-- The inner `for model_type in model_types` loop of
`compare_all_models`: a returned response is appended to `results`, a
raised exception becomes a warning (`main.py` lines 157-167).
Returns (results, warnings). -/
def run_model_types (cfg : Config) (ocs : Outcomes) (v : Vendor) (query : String) :
    List String → List NormalizedResponse × List String
  | [] => ([], [])
  | mt :: rest =>
    let tail := run_model_types cfg ocs v query rest
    match run_generate cfg ocs v query mt none with
    | .ok r => (r :: tail.1, tail.2)
    | .error e =>
      (tail.1, ("Warning: Failed to query " ++ vendor_name v ++ " " ++ mt ++ ": " ++ e) :: tail.2)

/-- Models `compare_all_models` (`main.py` lines 143-178): outer loop over
vendors; a vendor whose provider construction raises is skipped whole
with a warning (lines 169-170). -/
def compare_all_models (query : String) (vendors : List Vendor) (model_types : List String)
    (cfg : Config) (ocs : Outcomes) : List NormalizedResponse × List String :=
  match vendors with
  | [] => ([], [])
  | v :: rest =>
    let tail := compare_all_models query rest model_types cfg ocs
    match get_provider cfg v with
    | .ok _ =>
      let vr := run_model_types cfg ocs v query model_types
      (vr.1 ++ tail.1, vr.2 ++ tail.2)
    | .error e =>
      (tail.1, ("Warning: Provider " ++ vendor_name v ++ " unavailable: " ++ e) :: tail.2)

/-- Models `single_model_query` (`main.py` lines 113-140) up to the display
layer: obtain the provider (propagating the factory's `ValueError`)
and call `generate_response`; whatever that raises propagates to the
surrounding mode handler. -/
def single_model_query (cfg : Config) (ocs : Outcomes) (v : Vendor)
    (query model_type : String) (model_name : Option String) :
    Except String NormalizedResponse :=
  match get_provider cfg v with
  | .error e => .error e
  | .ok _ => run_generate cfg ocs v query model_type model_name

/-- A fully-credentialed configuration used for concrete evaluations. -/
def full_cfg : Config :=
  { openai_api_key := some "k", anthropic_api_key := some "k", huggingface_api_key := some "k" }

/-- A configuration whose anthropic key is absent. -/
def no_anthropic_cfg : Config :=
  { openai_api_key := some "k", anthropic_api_key := none, huggingface_api_key := some "k" }

/-- Concrete stub outcomes: every vendor call fails with "boom" after
one second; timestamps are zero. -/
def stub_outcomes : Outcomes where
  openai := fun _ => .exn "boom" 1
  anthropic := fun _ => .exn "boom" 1
  huggingface := fun _ => .exn "boom" 1
  tstamp := fun _ _ => 0

/-! ## Helper lemmas -/

/-- A value produced by an association-list lookup is one of the stored
values. -/
theorem lookup_val_mem {α β : Type} [BEq α] {l : List (α × β)} {a : α} {b : β}
    (h : l.lookup a = some b) : b ∈ l.map Prod.snd := by
  induction l with
  | nil => simp [List.lookup] at h
  | cons p rest ih =>
    rw [List.lookup] at h
    by_cases hc : (a == p.1) = true
    · rw [hc] at h
      simp at h
      simp [h]
    · rw [Bool.not_eq_true] at hc
      rw [hc] at h
      simp [ih h]

/-- All provider-specific estimators fall back to the basic word-count
estimate in the no-tokenizer environment, whatever the provider string. -/
theorem estimate_tokens_eq_basic (text provider model_name : String) :
    estimate_tokens text provider model_name = basic_token_estimate text := by
  unfold estimate_tokens estimate_openai_tokens estimate_anthropic_tokens
    estimate_huggingface_tokens
  split_ifs <;> rfl

/-! ## Claims -/

/-- C7: `check_context_window` is internally consistent: the returned
`fits_in_window` flag equals `estimated_tokens ≤ context_window`, the
returned `remaining_tokens` equals `max 0 (context_window -
estimated_tokens)`, and `estimated_tokens` is exactly what
`estimate_tokens` computes on the same inputs. -/
theorem check_context_window_consistent (text : String) (cw : ℤ)
    (provider model_name : String) :
    (check_context_window text cw provider model_name).estimated_tokens
        = estimate_tokens text provider model_name
    ∧ (check_context_window text cw provider model_name).context_window = cw
    ∧ (check_context_window text cw provider model_name).fits_in_window
        = decide (((check_context_window text cw provider model_name).estimated_tokens : ℤ)
            ≤ (check_context_window text cw provider model_name).context_window)
    ∧ (check_context_window text cw provider model_name).remaining_tokens
        = max 0 ((check_context_window text cw provider model_name).context_window
            - ((check_context_window text cw provider model_name).estimated_tokens : ℤ)) :=
  ⟨rfl, rfl, rfl, rfl⟩

/-- C9 counterexample: the Anthropic provider's context-window table does
NOT default to 4096 for unknown model names — it defaults to 200000. -/
theorem anthropic_context_window_default_counterexample :
    AnthropicProvider.get_context_window "unlisted-model" ≠ 4096 := by decide

/-- C9 amended: each `get_context_window` is a pure static-table lookup;
a listed name maps to its table value, and the default for names not in
the table is 4096 for the OpenAI and Hugging Face providers but 200000
for the Anthropic provider. -/
theorem context_window_lookup_defaults (m : String) :
    (OpenAIProvider.windows.lookup m = none → OpenAIProvider.get_context_window m = 4096)
    ∧ (∀ w, OpenAIProvider.windows.lookup m = some w → OpenAIProvider.get_context_window m = w)
    ∧ (HuggingFaceProvider.windows.lookup m = none →
        HuggingFaceProvider.get_context_window m = 4096)
    ∧ (∀ w, HuggingFaceProvider.windows.lookup m = some w →
        HuggingFaceProvider.get_context_window m = w)
    ∧ (AnthropicProvider.windows.lookup m = none →
        AnthropicProvider.get_context_window m = 200000)
    ∧ (∀ w, AnthropicProvider.windows.lookup m = some w →
        AnthropicProvider.get_context_window m = w) := by
  unfold OpenAIProvider.get_context_window HuggingFaceProvider.get_context_window
    AnthropicProvider.get_context_window
  refine ⟨fun h => ?_, fun w h => ?_, fun h => ?_, fun w h => ?_, fun h => ?_, fun w h => ?_⟩ <;>
    rw [h] <;> rfl

/-- C9 witness: an unlisted name hits the 4096 default for OpenAI. -/
theorem context_window_lookup_defaults_witness :
    OpenAIProvider.windows.lookup "unlisted-model" = none
    ∧ OpenAIProvider.get_context_window "unlisted-model" = 4096 :=
  ⟨by decide, (context_window_lookup_defaults "unlisted-model").1 (by decide)⟩

/-- C5 counterexample: the fallback estimate uses Python `int()`
truncation, not `round`: on the two-word text `"a b"` the code yields
`int(2 * 1.3) = 2` while `round(2 * 1.3) = 3`. -/
theorem fallback_estimate_round_counterexample :
    (basic_token_estimate "a b" : ℤ) ≠ round ((count_words "a b" : ℚ) * 13 / 10) := by
  rw [show basic_token_estimate "a b" = 2 from rfl, show count_words "a b" = 2 from rfl]
  norm_num [round_eq]

/-- C5 amended: for every text `T`, `estimate(T) ≥ 0`, and the fallback
estimate equals `⌊wordCount(T) * 1.3⌋` (truncation, not rounding);
this exact fallback is used uniformly by all three provider-specific
estimators. -/
theorem fallback_estimate_floor (T : String) :
    0 ≤ basic_token_estimate T
    ∧ basic_token_estimate T = ⌊(count_words T : ℚ) * 13 / 10⌋₊
    ∧ ∀ provider model_name,
        estimate_tokens T provider model_name = basic_token_estimate T := by
  refine ⟨Nat.zero_le _, ?_, fun provider model_name => estimate_tokens_eq_basic ..⟩
  have h : (count_words T : ℚ) * 13 / 10 = ((count_words T * 13 : ℕ) : ℚ) / ((10 : ℕ) : ℚ) := by
    push_cast
    ring
  rw [h, Nat.floor_div_eq_div]
  rfl

/-- C8 (code bug): on the Hugging Face success path the token usage is
computed by the provider's own `count_tokens`, whose no-tokenizer
fallback returns `len(text.split()) * 1.3` — a non-integral float,
despite the claim (and the function's own `-> int` annotation).  At the
two-word query `"hello world"` the recorded `input_tokens` is `13/5`
(denominator 5, not an integer), even though it is non-negative and
`total = input + output` does hold. -/
theorem hf_token_usage_float_bug :
    ∃ r, HuggingFaceProvider.generate_response true "hello world" "instruct" none
          (.ok ⟨200, .jlist [[("generated_text", "All good")]] "", ""⟩ 1) 2 = .ok r
      ∧ r.token_usage.input_tokens = 13 / 5
      ∧ r.token_usage.input_tokens.den ≠ 1
      ∧ 0 ≤ r.token_usage.input_tokens
      ∧ 0 ≤ r.token_usage.output_tokens
      ∧ r.token_usage.total_tokens = r.token_usage.input_tokens + r.token_usage.output_tokens := by
  have hin : HuggingFaceProvider.count_tokens "hello world" "meta-llama/Llama-2-7b-chat-hf"
      = 13 / 5 := by
    unfold HuggingFaceProvider.count_tokens
    rw [show count_words "hello world" = 2 from rfl]
    norm_num
  refine ⟨_, rfl, ?_, ?_, ?_, ?_, rfl⟩
  · exact hin
  · show (HuggingFaceProvider.count_tokens "hello world" "meta-llama/Llama-2-7b-chat-hf").den ≠ 1
    rw [hin]
    norm_num [Rat.den_div_eq_of_coprime]
  · show (0 : ℚ) ≤ HuggingFaceProvider.count_tokens "hello world" "meta-llama/Llama-2-7b-chat-hf"
    rw [hin]
    norm_num
  · show (0 : ℚ) ≤ HuggingFaceProvider.count_tokens "All good" "meta-llama/Llama-2-7b-chat-hf"
    unfold HuggingFaceProvider.count_tokens
    positivity

/-- C1: for every query, once the model is resolved, a failing vendor call
(any exception raised inside the `try`, and for Hugging Face also any
non-200 status) makes `generate_response` return normally (`Except.ok`,
never `Except.error`) with the error-path record: `error` set to the
message, all three `token_usage` counters zero, and `response_time`
equal to the elapsed time measured up to the failure point. -/
theorem vendor_failure_yields_error_response (q mt : String) (mn : Option String)
    (e : String) (t ts : ℚ) (mo ma mh : String)
    (ho : resolve_model OpenAIProvider.get_default_model mt mn = some mo)
    (ha : resolve_model AnthropicProvider.get_default_model mt mn = some ma)
    (hh : resolve_model HuggingFaceProvider.get_default_model mt mn = some mh) :
    (∀ p m, (error_response p m mt e t).error = some e
      ∧ (error_response p m mt e t).token_usage = ⟨0, 0, 0⟩
      ∧ (error_response p m mt e t).response_time = t)
    ∧ OpenAIProvider.generate_response true q mt mn (.exn e t) ts
        = .ok (error_response "openai" mo mt e t)
    ∧ AnthropicProvider.generate_response true q mt mn (.exn e t) ts
        = .ok (error_response "anthropic" ma mt e t)
    ∧ HuggingFaceProvider.generate_response true q mt mn (.exn e t) ts
        = .ok (error_response "huggingface" mh mt e t)
    ∧ ∀ body raw (status : ℕ), status ≠ 200 →
        HuggingFaceProvider.generate_response true q mt mn (.ok ⟨status, body, raw⟩ t) ts
          = .ok (error_response "huggingface" mh mt
              ("API error: " ++ toString status ++ " - " ++ raw) t) := by
  refine ⟨fun p m => ⟨rfl, rfl, rfl⟩, ?_, ?_, ?_, ?_⟩
  · simp [OpenAIProvider.generate_response, ho]
  · simp [AnthropicProvider.generate_response, ha]
  · simp [HuggingFaceProvider.generate_response, hh]
  · intro body raw status hs
    simp [HuggingFaceProvider.generate_response, hh, hs]

/-- C1 witness at a concrete resolvable input. -/
theorem vendor_failure_yields_error_response_witness :
    OpenAIProvider.generate_response true "hi" "instruct" none (.exn "boom" 1) 0
      = .ok (error_response "openai" "gpt-3.5-turbo" "instruct" "boom" 1) :=
  (vendor_failure_yields_error_response "hi" "instruct" none "boom" 1 0
    "gpt-3.5-turbo" "claude-3-sonnet-20240229" "meta-llama/Llama-2-7b-chat-hf"
    rfl rfl rfl).2.1

/-- C10: the failure-path record of all three providers has
`context_window = 0`, empty `characteristics`, and response text
`"Error: "` followed by the message — unlike the success path, whose
static tables never yield 0 or an empty record for any model name. -/
theorem error_path_zeroed_metadata (q mt : String) (mn : Option String)
    (e : String) (t ts : ℚ) (mo ma mh : String)
    (ho : resolve_model OpenAIProvider.get_default_model mt mn = some mo)
    (ha : resolve_model AnthropicProvider.get_default_model mt mn = some ma)
    (hh : resolve_model HuggingFaceProvider.get_default_model mt mn = some mh) :
    (∀ p m, (error_response p m mt e t).context_window = 0
      ∧ (error_response p m mt e t).characteristics = []
      ∧ (error_response p m mt e t).response = "Error: " ++ e)
    ∧ (∀ m, OpenAIProvider.get_context_window m ≠ 0
        ∧ OpenAIProvider.get_model_characteristics m ≠ [])
    ∧ (∀ m, AnthropicProvider.get_context_window m ≠ 0
        ∧ AnthropicProvider.get_model_characteristics m ≠ [])
    ∧ (∀ m, HuggingFaceProvider.get_context_window m ≠ 0
        ∧ HuggingFaceProvider.get_model_characteristics m ≠ [])
    ∧ OpenAIProvider.generate_response true q mt mn (.exn e t) ts
        = .ok (error_response "openai" mo mt e t)
    ∧ AnthropicProvider.generate_response true q mt mn (.exn e t) ts
        = .ok (error_response "anthropic" ma mt e t)
    ∧ HuggingFaceProvider.generate_response true q mt mn (.exn e t) ts
        = .ok (error_response "huggingface" mh mt e t) := by
  refine ⟨fun p m => ⟨rfl, rfl, rfl⟩, ?_, ?_, ?_, ?_, ?_, ?_⟩
  · intro m
    unfold OpenAIProvider.get_context_window OpenAIProvider.get_model_characteristics
    constructor
    · cases hl : OpenAIProvider.windows.lookup m with
      | none => decide
      | some w =>
        have hall : ∀ b ∈ OpenAIProvider.windows.map Prod.snd, b ≠ (0 : ℕ) := by decide
        simpa using hall w (lookup_val_mem hl)
    · cases hl : OpenAIProvider.characteristics_table.lookup m with
      | none => decide
      | some cs =>
        have hall : ∀ b ∈ OpenAIProvider.characteristics_table.map Prod.snd,
            b ≠ ([] : List (String × PyVal)) := by decide
        simpa using hall cs (lookup_val_mem hl)
  · intro m
    unfold AnthropicProvider.get_context_window AnthropicProvider.get_model_characteristics
    constructor
    · cases hl : AnthropicProvider.windows.lookup m with
      | none => decide
      | some w =>
        have hall : ∀ b ∈ AnthropicProvider.windows.map Prod.snd, b ≠ (0 : ℕ) := by decide
        simpa using hall w (lookup_val_mem hl)
    · cases hl : AnthropicProvider.characteristics_table.lookup m with
      | none => decide
      | some cs =>
        have hall : ∀ b ∈ AnthropicProvider.characteristics_table.map Prod.snd,
            b ≠ ([] : List (String × PyVal)) := by decide
        simpa using hall cs (lookup_val_mem hl)
  · intro m
    unfold HuggingFaceProvider.get_context_window HuggingFaceProvider.get_model_characteristics
    constructor
    · cases hl : HuggingFaceProvider.windows.lookup m with
      | none => decide
      | some w =>
        have hall : ∀ b ∈ HuggingFaceProvider.windows.map Prod.snd, b ≠ (0 : ℕ) := by decide
        simpa using hall w (lookup_val_mem hl)
    · cases hl : HuggingFaceProvider.characteristics_table.lookup m with
      | none => decide
      | some cs =>
        have hall : ∀ b ∈ HuggingFaceProvider.characteristics_table.map Prod.snd,
            b ≠ ([] : List (String × PyVal)) := by decide
        simpa using hall cs (lookup_val_mem hl)
  · simp [OpenAIProvider.generate_response, ho]
  · simp [AnthropicProvider.generate_response, ha]
  · simp [HuggingFaceProvider.generate_response, hh]

/-- C10 witness at a concrete resolvable input. -/
theorem error_path_zeroed_metadata_witness :
    (error_response "openai" "gpt-3.5-turbo" "instruct" "boom" 1).context_window = 0
    ∧ (error_response "openai" "gpt-3.5-turbo" "instruct" "boom" 1).characteristics = []
    ∧ (error_response "openai" "gpt-3.5-turbo" "instruct" "boom" 1).response = "Error: boom" :=
  (error_path_zeroed_metadata "hi" "instruct" none "boom" 1 0
    "gpt-3.5-turbo" "claude-3-sonnet-20240229" "meta-llama/Llama-2-7b-chat-hf"
    rfl rfl rfl).1 "openai" "gpt-3.5-turbo"

/-- C3: missing-credential handling is asymmetric by mode.  Constructing
the provider raises the factory's `ValueError`; in single-query mode
that error propagates to the caller (for every `ocs`, i.e. no vendor
call is consumed); in compare-all mode the vendor is skipped with a
warning — its pairs contribute no record of any kind — while the
remaining vendors' records are exactly those of a run without it. -/
theorem credential_missing_asymmetry (cfg : Config) (ocs : Outcomes) (v : Vendor)
    (query mt : String) (mn : Option String) (rest : List Vendor) (mts : List String)
    (h : truthy (cfg.key v) = false) :
    get_provider cfg v = .error (cred_error v)
    ∧ single_model_query cfg ocs v query mt mn = .error (cred_error v)
    ∧ (compare_all_models query (v :: rest) mts cfg ocs).1
        = (compare_all_models query rest mts cfg ocs).1
    ∧ (compare_all_models query (v :: rest) mts cfg ocs).2
        = ("Warning: Provider " ++ vendor_name v ++ " unavailable: " ++ cred_error v)
            :: (compare_all_models query rest mts cfg ocs).2 := by
  have hgp : get_provider cfg v = .error (cred_error v) := by
    simp [get_provider, h]
  refine ⟨hgp, ?_, ?_, ?_⟩
  · simp [single_model_query, hgp]
  · simp [compare_all_models, hgp]
  · simp [compare_all_models, hgp]

/-- C3 witness: anthropic key absent, openai and huggingface credentialed. -/
theorem credential_missing_asymmetry_witness :
    single_model_query no_anthropic_cfg stub_outcomes Vendor.anthropic "q" "instruct" none
      = .error (cred_error Vendor.anthropic) :=
  (credential_missing_asymmetry no_anthropic_cfg stub_outcomes Vendor.anthropic
    "q" "instruct" none [] [] rfl).2.1

/-- C4 counterexample: with full credentials, the `NoModelAvailable`
condition (anthropic has no default `base` model) does arise inside
`generate_response`, yet `compare_all_models` does NOT propagate it:
the batch is returned normally with the pair silently skipped (a
warning, no record) — contradicting "always propagated to the caller,
never silently skipped, in compare-all mode as well". -/
theorem no_model_available_not_propagated_counterexample :
    run_generate full_cfg stub_outcomes Vendor.anthropic "q" "base" none
        = .error "No available model for type: base"
    ∧ (compare_all_models "q" [Vendor.anthropic] ["base"] full_cfg stub_outcomes).1 = []
    ∧ (compare_all_models "q" [Vendor.anthropic] ["base"] full_cfg stub_outcomes).2
        = ["Warning: Failed to query anthropic base: No available model for type: base"] := by
  refine ⟨rfl, by decide, ?_⟩
  show [String.append _ _] = _
  rfl

/-- C4 amended: when a credentialed (vendor, model_type) pair has no
registered default model and no explicit name is given,
`generate_response` fails with the `NoModelAvailable` `ValueError`
before any vendor call (for every `ocs`); in single-query mode that
error propagates to the caller, but in compare-all mode it is caught by
the per-pair handler like any other per-pair failure: the pair is
skipped with a warning and contributes no record. -/
theorem no_model_available_mode_handling (cfg : Config) (ocs : Outcomes) (v : Vendor)
    (query mt : String)
    (hcred : truthy (cfg.key v) = true)
    (hnone : resolve_model (default_model v) mt none = none) :
    run_generate cfg ocs v query mt none = .error ("No available model for type: " ++ mt)
    ∧ single_model_query cfg ocs v query mt none
        = .error ("No available model for type: " ++ mt)
    ∧ ∀ rest, (run_model_types cfg ocs v query (mt :: rest)).1
          = (run_model_types cfg ocs v query rest).1
        ∧ (run_model_types cfg ocs v query (mt :: rest)).2
          = ("Warning: Failed to query " ++ vendor_name v ++ " " ++ mt ++ ": "
              ++ ("No available model for type: " ++ mt))
            :: (run_model_types cfg ocs v query rest).2 := by
  have hrg : run_generate cfg ocs v query mt none
      = .error ("No available model for type: " ++ mt) := by
    cases v with
    | openai =>
      simp only [Config.key] at hcred
      simp only [default_model] at hnone
      simp [run_generate, OpenAIProvider.generate_response, hcred, hnone]
    | anthropic =>
      simp only [Config.key] at hcred
      simp only [default_model] at hnone
      simp [run_generate, AnthropicProvider.generate_response, hcred, hnone]
    | huggingface =>
      simp only [Config.key] at hcred
      simp only [default_model] at hnone
      simp [run_generate, HuggingFaceProvider.generate_response, hcred, hnone]
  refine ⟨hrg, ?_, ?_⟩
  · have hgp : get_provider cfg v = .ok () := by
      simp [get_provider, hcred]
    simp [single_model_query, hgp, hrg]
  · intro rest
    constructor
    · simp [run_model_types, hrg]
    · simp [run_model_types, hrg]

/-- C4 witness at the concrete anthropic/base pair. -/
theorem no_model_available_mode_handling_witness :
    run_generate full_cfg stub_outcomes Vendor.anthropic "q" "base" none
      = .error ("No available model for type: " ++ "base") :=
  (no_model_available_mode_handling full_cfg stub_outcomes Vendor.anthropic
    "q" "base" rfl rfl).1

/-- The records collected by the inner model-type loop are exactly the
`Except.ok` results of `generate_response` over the types, in order. -/
theorem run_model_types_records (cfg : Config) (ocs : Outcomes) (v : Vendor)
    (query : String) (mts : List String) :
    (run_model_types cfg ocs v query mts).1
      = mts.filterMap (fun mt => (run_generate cfg ocs v query mt none).toOption) := by
  induction mts with
  | nil => rfl
  | cons mt rest ih =>
    rw [run_model_types, List.filterMap_cons]
    cases hg : run_generate cfg ocs v query mt none with
    | ok r => simpa [hg, Except.toOption] using ih
    | error e => simpa [hg, Except.toOption] using ih

/-- With the client ready and the model resolved, the OpenAI generate
always returns `Except.ok` with `model_name` equal to the resolved name. -/
theorem openai_resolved_ok (q mt : String) (mn : Option String)
    (call : CallResult OpenAIProvider.Success) (ts : ℚ) (m : String)
    (hm : resolve_model OpenAIProvider.get_default_model mt mn = some m) :
    ∃ r, OpenAIProvider.generate_response true q mt mn call ts = .ok r
      ∧ r.model_name = m := by
  unfold OpenAIProvider.generate_response
  rw [hm]
  cases call with
  | ok s el => exact ⟨_, rfl, rfl⟩
  | exn e el => exact ⟨_, rfl, rfl⟩

/-- Anthropic analogue of `openai_resolved_ok`. -/
theorem anthropic_resolved_ok (q mt : String) (mn : Option String)
    (call : CallResult AnthropicProvider.Success) (ts : ℚ) (m : String)
    (hm : resolve_model AnthropicProvider.get_default_model mt mn = some m) :
    ∃ r, AnthropicProvider.generate_response true q mt mn call ts = .ok r
      ∧ r.model_name = m := by
  unfold AnthropicProvider.generate_response
  rw [hm]
  cases call with
  | ok s el => exact ⟨_, rfl, rfl⟩
  | exn e el => exact ⟨_, rfl, rfl⟩

/-- Hugging Face analogue of `openai_resolved_ok` (both the 200 and the
non-200 branch return a record named by the resolved model). -/
theorem huggingface_resolved_ok (q mt : String) (mn : Option String)
    (call : CallResult HuggingFaceProvider.HttpReply) (ts : ℚ) (m : String)
    (hm : resolve_model HuggingFaceProvider.get_default_model mt mn = some m) :
    ∃ r, HuggingFaceProvider.generate_response true q mt mn call ts = .ok r
      ∧ r.model_name = m := by
  unfold HuggingFaceProvider.generate_response
  rw [hm]
  cases call with
  | ok s el =>
    by_cases hst : s.status_code = 200
    · exact ⟨_, by simp only [if_pos hst]; rfl, rfl⟩
    · exact ⟨_, by simp only [if_neg hst]; rfl, rfl⟩
  | exn e el => exact ⟨_, rfl, rfl⟩

/-- C2 counterexample: with every listed vendor fully credentialed,
`compare_all_models` does NOT return one record per (vendor, model_type)
pair of the cartesian product: for vendors `[anthropic]` and types
`["base"]` the product has one pair but the batch has zero records (the
pair has no default model, so `generate_response` raises and the pair
is skipped with a warning). -/
theorem compare_all_cartesian_counterexample :
    (compare_all_models "q" [Vendor.anthropic] ["base"] full_cfg stub_outcomes).1.length
      ≠ [Vendor.anthropic].length * ["base"].length := by
  decide

/-- C2 amended: with every listed vendor credentialed, the batch consists,
in outer-loop-vendor inner-loop-model-type (cartesian) order, of exactly
the responses `generate_response` returned — success or internal-error
valued — one per pair that has a registered default model (such a pair
always yields `Except.ok` with `model_name` equal to that non-null
default), while a pair without a default raises `NoModelAvailable` and
is skipped. -/
theorem compare_all_records_characterization (query : String) (cfg : Config)
    (ocs : Outcomes) (vendors : List Vendor) (mts : List String)
    (hcred : ∀ v ∈ vendors, truthy (cfg.key v) = true) :
    (compare_all_models query vendors mts cfg ocs).1
      = (vendors.map (fun v => mts.filterMap
          (fun mt => (run_generate cfg ocs v query mt none).toOption))).flatten
    ∧ ∀ v ∈ vendors, ∀ mt ∈ mts,
        (∀ m, resolve_model (default_model v) mt none = some m →
          ∃ r, run_generate cfg ocs v query mt none = .ok r ∧ r.model_name = m)
        ∧ (resolve_model (default_model v) mt none = none →
          run_generate cfg ocs v query mt none
            = .error ("No available model for type: " ++ mt)) := by
  constructor
  · induction vendors with
    | nil => rfl
    | cons v rest ih =>
      have hv : truthy (cfg.key v) = true := hcred v (List.mem_cons_self v rest)
      have hrest : ∀ w ∈ rest, truthy (cfg.key w) = true :=
        fun w hw => hcred w (List.mem_cons_of_mem v hw)
      have hgp : get_provider cfg v = .ok () := by
        simp [get_provider, hv]
      rw [compare_all_models]
      simp only [hgp, List.map_cons, List.flatten_cons]
      rw [run_model_types_records, ih hrest]
  · intro v hv mt hmt
    have hc : truthy (cfg.key v) = true := hcred v hv
    constructor
    · intro m hm
      cases v with
      | openai =>
        simp only [Config.key] at hc
        simp only [default_model] at hm
        simpa [run_generate, hc] using
          openai_resolved_ok query mt none (ocs.openai mt) (ocs.tstamp .openai mt) m hm
      | anthropic =>
        simp only [Config.key] at hc
        simp only [default_model] at hm
        simpa [run_generate, hc] using
          anthropic_resolved_ok query mt none (ocs.anthropic mt) (ocs.tstamp .anthropic mt) m hm
      | huggingface =>
        simp only [Config.key] at hc
        simp only [default_model] at hm
        simpa [run_generate, hc] using
          huggingface_resolved_ok query mt none (ocs.huggingface mt)
            (ocs.tstamp .huggingface mt) m hm
    · intro hm
      cases v with
      | openai =>
        simp only [Config.key] at hc
        simp only [default_model] at hm
        simp [run_generate, OpenAIProvider.generate_response, hc, hm]
      | anthropic =>
        simp only [Config.key] at hc
        simp only [default_model] at hm
        simp [run_generate, AnthropicProvider.generate_response, hc, hm]
      | huggingface =>
        simp only [Config.key] at hc
        simp only [default_model] at hm
        simp [run_generate, HuggingFaceProvider.generate_response, hc, hm]

/-- C2 witness at a concrete credentialed run. -/
theorem compare_all_records_characterization_witness :
    (compare_all_models "q" [Vendor.openai] ["instruct"] full_cfg stub_outcomes).1
      = ([Vendor.openai].map (fun v => ["instruct"].filterMap
          (fun mt => (run_generate full_cfg stub_outcomes v "q" mt none).toOption))).flatten :=
  (compare_all_records_characterization "q" full_cfg stub_outcomes
    [Vendor.openai] ["instruct"] (by decide)).1

/-! ## Split/join lemmas for the truncation claim -/

/-- Every word produced by the splitter is non-empty and free of
whitespace characters. -/
theorem splitWordsAux_good (s : List Char) : ∀ acc, (∀ c ∈ acc, c.isWhitespace = false) →
    ∀ w ∈ splitWordsAux s acc, w ≠ [] ∧ ∀ c ∈ w, c.isWhitespace = false := by
  induction s with
  | nil =>
    intro acc hacc w hw
    rw [splitWordsAux] at hw
    by_cases ha : acc.isEmpty = true
    · rw [if_pos ha] at hw
      simp at hw
    · rw [if_neg ha] at hw
      rw [Bool.not_eq_true, List.isEmpty_eq_false] at ha
      simp only [List.mem_singleton] at hw
      subst hw
      refine ⟨by simpa [List.reverse_eq_nil_iff] using ha, ?_⟩
      intro c hc
      exact hacc c (List.mem_reverse.mp hc)
  | cons c cs ih =>
    intro acc hacc w hw
    rw [splitWordsAux] at hw
    by_cases hws : c.isWhitespace = true
    · rw [if_pos hws] at hw
      by_cases ha : acc.isEmpty = true
      · rw [if_pos ha] at hw
        exact ih [] (by simp) w hw
      · rw [if_neg ha] at hw
        rw [Bool.not_eq_true, List.isEmpty_eq_false] at ha
        rcases List.mem_cons.mp hw with hw | hw
        · subst hw
          refine ⟨by simpa [List.reverse_eq_nil_iff] using ha, ?_⟩
          intro d hd
          exact hacc d (List.mem_reverse.mp hd)
        · exact ih [] (by simp) w hw
    · rw [if_neg hws] at hw
      rw [Bool.not_eq_true] at hws
      refine ih (c :: acc) ?_ w hw
      intro d hd
      rcases List.mem_cons.mp hd with hd | hd
      · subst hd
        exact hws
      · exact hacc d hd

/-- Feeding a whitespace-free word into the splitter just extends the
accumulator. -/
theorem splitWordsAux_append_word (w : List Char) :
    (∀ c ∈ w, c.isWhitespace = false) →
    ∀ s acc, splitWordsAux (w ++ s) acc = splitWordsAux s (w.reverse ++ acc) := by
  induction w with
  | nil =>
    intro _ s acc
    rfl
  | cons c w ih =>
    intro hw s acc
    have hc : c.isWhitespace = false := hw c (List.mem_cons_self c w)
    have hw' : ∀ d ∈ w, d.isWhitespace = false :=
      fun d hd => hw d (List.mem_cons_of_mem c hd)
    rw [List.cons_append, splitWordsAux, hc]
    rw [if_neg (by simp)]
    rw [ih hw' s (c :: acc)]
    simp [List.append_assoc]

/-- Splitting the space-join of non-empty whitespace-free words recovers
exactly those words. -/
theorem splitWords_joinWords (ws : List (List Char))
    (h : ∀ w ∈ ws, w ≠ [] ∧ ∀ c ∈ w, c.isWhitespace = false) :
    splitWords (joinWords ws) = ws := by
  induction ws with
  | nil => rfl
  | cons w ws ih =>
    have hw := h w (List.mem_cons_self w ws)
    have hrest : ∀ u ∈ ws, u ≠ [] ∧ ∀ c ∈ u, c.isWhitespace = false :=
      fun u hu => h u (List.mem_cons_of_mem w hu)
    have hne : ¬ w.reverse.isEmpty = true := by
      rw [Bool.not_eq_true, List.isEmpty_eq_false]
      simpa [List.reverse_eq_nil_iff] using hw.1
    cases ws with
    | nil =>
      show splitWordsAux (joinWords [w]) [] = [w]
      rw [show joinWords [w] = w from rfl]
      rw [show w = w ++ ([] : List Char) from (List.append_nil w).symm]
      rw [splitWordsAux_append_word w hw.2]
      rw [splitWordsAux]
      rw [List.append_nil, if_neg hne, List.reverse_reverse, List.append_nil]
    | cons u us =>
      show splitWordsAux (joinWords (w :: u :: us)) [] = w :: u :: us
      rw [show joinWords (w :: u :: us) = w ++ ' ' :: joinWords (u :: us) from rfl]
      rw [splitWordsAux_append_word w hw.2]
      rw [splitWordsAux]
      rw [if_pos (by decide)]
      rw [List.append_nil, if_neg hne, List.reverse_reverse]
      exact congrArg (w :: ·) (ih hrest)

/-- The words of any text are non-empty and whitespace-free. -/
theorem splitWords_good (s : List Char) :
    ∀ w ∈ splitWords s, w ≠ [] ∧ ∀ c ∈ w, c.isWhitespace = false :=
  splitWordsAux_good s [] (by simp)

/-- Estimated tokens of the space-join of a word-count prefix, in closed
form. -/
theorem estimate_join_take (p mn : String) (ws : List (List Char))
    (hgood : ∀ w ∈ ws, w ≠ [] ∧ ∀ c ∈ w, c.isWhitespace = false) (k : ℕ) :
    estimate_tokens (String.mk (joinWords (ws.take k))) p mn
      = min k ws.length * 13 / 10 := by
  rw [estimate_tokens_eq_basic]
  show (splitWords (String.mk (joinWords (ws.take k))).data).length * 13 / 10 = _
  rw [show (String.mk (joinWords (ws.take k))).data = joinWords (ws.take k) from rfl]
  rw [splitWords_joinWords _ (fun w hw => hgood w (List.take_subset k ws hw))]
  rw [List.length_take]

/-- The prefix estimate is monotone in the prefix length. -/
theorem prefix_estimate_mono {a b len N : ℕ} (hab : a ≤ b)
    (h : min b len * 13 / 10 ≤ N) : min a len * 13 / 10 ≤ N :=
  le_trans (Nat.div_le_div_right (Nat.mul_le_mul_right _ (min_le_min hab le_rfl))) h

/-- Correctness of the binary-search loop: starting from an interval whose
left end satisfies the token bound and beyond whose right end (up to the
word count) the bound fails, the loop lands on the largest prefix length
within the word count that satisfies the bound. -/
theorem truncateSearch_spec (p mn : String) (ws : List (List Char)) (N : ℕ)
    (hgood : ∀ w ∈ ws, w ≠ [] ∧ ∀ c ∈ w, c.isWhitespace = false) :
    ∀ n l r, r - l = n → l ≤ r → r ≤ ws.length →
      min l ws.length * 13 / 10 ≤ N →
      (∀ k, r < k → k ≤ ws.length → ¬ min k ws.length * 13 / 10 ≤ N) →
      l ≤ truncateSearch p mn ws N l r
      ∧ truncateSearch p mn ws N l r ≤ r
      ∧ min (truncateSearch p mn ws N l r) ws.length * 13 / 10 ≤ N
      ∧ ∀ k, truncateSearch p mn ws N l r < k → k ≤ ws.length →
          ¬ min k ws.length * 13 / 10 ≤ N := by
  intro n
  induction n using Nat.strong_induction_on with
  | _ n ih =>
    intro l r hn hlr hrlen hPl hub
    rw [truncateSearch.eq_def]
    by_cases hlt : l < r
    · rw [dif_pos hlt]
      simp only []
      have hmid1 : l < (l + r + 1) / 2 := by omega
      have hmid2 : (l + r + 1) / 2 ≤ r := by omega
      have heq := estimate_join_take p mn ws hgood ((l + r + 1) / 2)
      by_cases hcond :
          estimate_tokens (String.mk (joinWords (ws.take ((l + r + 1) / 2)))) p mn ≤ N
      · rw [if_pos hcond]
        rw [heq] at hcond
        have hrec := ih (r - (l + r + 1) / 2) (by omega) ((l + r + 1) / 2) r rfl
          hmid2 hrlen hcond hub
        exact ⟨le_trans (le_of_lt hmid1) hrec.1, hrec.2.1, hrec.2.2.1, hrec.2.2.2⟩
      · rw [if_neg hcond]
        rw [heq] at hcond
        have hub' : ∀ k, (l + r + 1) / 2 - 1 < k → k ≤ ws.length →
            ¬ min k ws.length * 13 / 10 ≤ N := by
          intro k hk1 _ hP
          exact hcond (prefix_estimate_mono (by omega) hP)
        have hrec := ih ((l + r + 1) / 2 - 1 - l) (by omega) l ((l + r + 1) / 2 - 1) rfl
          (by omega) (by omega) hPl hub'
        exact ⟨hrec.1, le_trans hrec.2.1 (by omega), hrec.2.2.1, hrec.2.2.2⟩
    · rw [dif_neg hlt]
      have : l = r := by omega
      subst this
      exact ⟨le_rfl, le_rfl, hPl, hub⟩

/-- C6: `truncate_to_tokens` returns the text unchanged when its estimate
already fits the limit; otherwise it returns the space-join of the
longest word-count prefix whose estimated token count is within the
limit — never a prefix that exceeds it, never a split inside a word,
and ties favor the longer prefix. -/
theorem truncate_to_tokens_spec (T : String) (N : ℕ) (p mn : String) :
    (estimate_tokens T p mn ≤ N → truncate_to_tokens T N p mn = T)
    ∧ (N < estimate_tokens T p mn →
        ∃ k, k ≤ (splitWords T.data).length
          ∧ truncate_to_tokens T N p mn
              = String.mk (joinWords ((splitWords T.data).take k))
          ∧ estimate_tokens (truncate_to_tokens T N p mn) p mn ≤ N
          ∧ ∀ j, j ≤ (splitWords T.data).length →
              estimate_tokens (String.mk (joinWords ((splitWords T.data).take j))) p mn ≤ N →
              j ≤ k) := by
  constructor
  · intro h
    unfold truncate_to_tokens
    rw [if_pos h]
  · intro h
    have hgood := splitWords_good T.data
    have hnot : ¬ estimate_tokens T p mn ≤ N := not_le.mpr h
    have hres := truncateSearch_spec p mn (splitWords T.data) N hgood
      ((splitWords T.data).length - 0) 0 (splitWords T.data).length rfl
      (Nat.zero_le _) le_rfl (by simp)
      (fun k hk1 hk2 => absurd (hk1.trans_le hk2) (lt_irrefl _))
    have htr : truncate_to_tokens T N p mn
        = String.mk (joinWords ((splitWords T.data).take
            (truncateSearch p mn (splitWords T.data) N 0 (splitWords T.data).length))) := by
      unfold truncate_to_tokens
      rw [if_neg hnot]
    refine ⟨truncateSearch p mn (splitWords T.data) N 0 (splitWords T.data).length,
      hres.2.1, htr, ?_, ?_⟩
    · rw [htr, estimate_join_take p mn (splitWords T.data) hgood]
      exact hres.2.2.1
    · intro j hj hPj
      rw [estimate_join_take p mn (splitWords T.data) hgood] at hPj
      by_contra hgt
      exact hres.2.2.2 j (by omega) hj hPj

/-- C6 witness: at the five-word text with limit 3 the estimate (6)
exceeds the limit and the longest fitting prefix has three words. -/
theorem truncate_to_tokens_spec_witness :
    3 < estimate_tokens "a b c d e" "openai" ""
    ∧ truncate_to_tokens "a b c d e" 3 "openai" "" = "a b c" :=
  ⟨by decide, by
    obtain ⟨k, hk, heq, hle, hmax⟩ :=
      (truncate_to_tokens_spec "a b c d e" 3 "openai" "").2 (by decide)
    have h3 : 3 ≤ k := hmax 3 (by decide) (by decide)
    have h4 : k ≤ 3 := by
      by_contra hgt
      have h4' : 4 ≤ k := by omega
      rw [show estimate_tokens (truncate_to_tokens "a b c d e" 3 "openai" "") "openai" ""
          = min k (splitWords ("a b c d e").data).length * 13 / 10 from by
        rw [heq, estimate_join_take _ _ _ (splitWords_good _)]] at hle
      exact absurd (@prefix_estimate_mono 4 k (splitWords ("a b c d e").data).length 3 h4' hle)
        (by decide)
    have hk3 : k = 3 := le_antisymm h4 h3
    rw [heq, hk3]
    rfl⟩

end UseCaseMapping
